import Mathlib

/-!
Verification of the tabular-exporter script
`src/week01/docker-sql/pipeline/pipeline.py`.

The script is embedded shallowly: a `DataFrame` is an ordered association
list of named integer columns; Python's `int(...)` conversion is modelled
by `pyInt`; the whole script body is the function `run`, which maps the
process argument list (and a flag saying whether the file write succeeds)
to a trace of observable events (stdout lines, file writes) together with
the final exit status.
-/

/-- An in-memory table: an ordered collection of named integer columns
(`pd.DataFrame` restricted to the integer columns this script builds). -/
structure DataFrame where
  cols : List (String × List Int)
deriving DecidableEq, Repr

/-- Row count of a dataframe: the length of its first column
(0 for an empty frame). -/
def nRows (df : DataFrame) : Nat :=
  match df.cols with
  | [] => 0
  | c :: _ => c.2.length

/-- Column assignment `df[name] = vals`: replaces the column if the name
exists, otherwise appends it at the end (pandas insertion order). -/
def setCol (df : DataFrame) (name : String) (vals : List Int) : DataFrame :=
  if (df.cols.map Prod.fst).contains name then
    ⟨df.cols.map (fun c => if c.1 = name then (name, vals) else c)⟩
  else
    ⟨df.cols ++ [(name, vals)]⟩

/-- `df.head(n)`: the first `n` rows of every column. -/
def dfHead (n : Nat) (df : DataFrame) : DataFrame :=
  ⟨df.cols.map (fun c => (c.1, c.2.take n))⟩

/-- The frame built on line 9 of the script:
`pd.DataFrame({"day": [1, 2], "num_passengers": [3, 4]})`. -/
def initialDF : DataFrame :=
  ⟨[("day", [1, 2]), ("num_passengers", [3, 4])]⟩

/-- Whitespace stripped by Python's `int(str)` (ASCII subset). -/
def isPySpace (c : Char) : Bool :=
  c.toNat = 32 || c.toNat = 9 || c.toNat = 10 ||
  c.toNat = 13 || c.toNat = 11 || c.toNat = 12

/-- Characters of a string with leading and trailing whitespace removed. -/
def pyStrip (s : String) : List Char :=
  ((s.toList.dropWhile isPySpace).reverse.dropWhile isPySpace).reverse

/-- Validity of the digit part of a Python integer literal: nonempty
decimal digits, where a single underscore may separate two digits. -/
def digitsCore : List Char → Bool
  | [] => false
  | [c] => c.isDigit
  | c :: d :: rest =>
    c.isDigit && (if d = '_' then digitsCore rest else digitsCore (d :: rest))

/-- Numeric value of a valid digit part (underscores ignored). -/
def digitsVal (cs : List Char) : Nat :=
  (cs.filter (fun c => c ≠ '_')).foldl (fun a c => a * 10 + (c.toNat - 48)) 0

/-- Python's `int(str)`: strip surrounding whitespace, allow one optional
sign, then decimal digits (with single underscores between digits);
`none` models the `ValueError` raised on any other input. -/
def pyInt (s : String) : Option Int :=
  match pyStrip s with
  | '+' :: rest => if digitsCore rest then some (digitsVal rest) else none
  | '-' :: rest => if digitsCore rest then some (-(digitsVal rest : Int)) else none
  | rest => if digitsCore rest then some (digitsVal rest) else none

/-- The output path `f"output_{month}.parquet"`. -/
def outName (m : Int) : String :=
  "output_" ++ toString m ++ ".parquet"

/-- The confirmation line `f"hello month={month}"`. -/
def helloStr (m : Int) : String :=
  "hello month=" ++ toString m

/-- The table after line 10 (`df['month'] = month`): the scalar month is
broadcast to a column of length `nRows initialDF`. -/
def dfFinal (m : Int) : DataFrame :=
  setCol initialDF "month" (List.replicate (nRows initialDF) m)

/-- Observable events of one script run: the three stdout writes and the
parquet file write. -/
inductive Ev where
  | argsLine (argv : List String)
  | preview (df : DataFrame)
  | fileWrite (name : String) (content : DataFrame)
  | helloLine (s : String)
deriving DecidableEq, Repr

/-- Whether an event is a write to standard output. -/
def isStdoutEv : Ev → Bool
  | Ev.fileWrite _ _ => false
  | _ => true

/-- The stdout portion of a trace, in order. -/
def stdoutOf (t : List Ev) : List Ev :=
  t.filter isStdoutEv

/-- Whether a trace contains a file write. -/
def writesFile (t : List Ev) : Bool :=
  t.any (fun e => match e with | Ev.fileWrite _ _ => true | _ => false)

/-- Result of one process invocation: the event trace and whether the
process exits with status 0. -/
structure RunOutcome where
  trace : List Ev
  exitOk : Bool
deriving DecidableEq, Repr

/-- The script body, line by line. `argv` is `sys.argv` (element 0 the
program name); `ioOk` says whether the parquet write succeeds (`false`
models an I/O error raised by `to_parquet`). The bare `sys.argv` on
line 4 has no observable effect and contributes nothing to the trace.
An unhandled exception (missing argument, `ValueError` from `int`,
I/O error) stops the trace where it occurs and exits nonzero. -/
def run (argv : List String) (ioOk : Bool) : RunOutcome :=
  let t0 : List Ev := [Ev.argsLine argv]
  match argv[1]? with
  | none => ⟨t0, false⟩
  | some s =>
    match pyInt s with
    | none => ⟨t0, false⟩
    | some month =>
      let df := setCol initialDF "month" (List.replicate (nRows initialDF) month)
      let t1 := t0 ++ [Ev.preview (dfHead 5 df)]
      if ioOk then
        ⟨t1 ++ [Ev.fileWrite (outName month) df, Ev.helloLine (helloStr month)], true⟩
      else
        ⟨t1, false⟩

/-- Overwriting file-system update: the new content replaces any earlier
entry for the same name. -/
def fsSet (fs : List (String × DataFrame)) (n : String) (c : DataFrame) :
    List (String × DataFrame) :=
  (n, c) :: fs.filter (fun p => p.1 ≠ n)

/-- Content of file `n` in the file system, if present. -/
def fsGet (fs : List (String × DataFrame)) (n : String) : Option DataFrame :=
  (fs.find? (fun p => p.1 = n)).map Prod.snd

/-- Effect of a trace on the file system: each file-write event
overwrites; stdout events leave it unchanged. -/
def applyTrace (fs : List (String × DataFrame)) (t : List Ev) :
    List (String × DataFrame) :=
  t.foldl (fun acc e =>
    match e with
    | Ev.fileWrite n c => fsSet acc n c
    | _ => acc) fs

theorem dfFinal_eq (m : Int) :
    dfFinal m = ⟨[("day", [1, 2]), ("num_passengers", [3, 4]), ("month", [m, m])]⟩ := rfl

theorem dfHead_dfFinal (m : Int) : dfHead 5 (dfFinal m) = dfFinal m := rfl

theorem run_ok (argv : List String) (s : String) (m : Int) (ioOk : Bool)
    (h1 : argv[1]? = some s) (h2 : pyInt s = some m) :
    run argv ioOk =
      if ioOk then
        ⟨[Ev.argsLine argv, Ev.preview (dfFinal m),
          Ev.fileWrite (outName m) (dfFinal m), Ev.helloLine (helloStr m)], true⟩
      else
        ⟨[Ev.argsLine argv, Ev.preview (dfFinal m)], false⟩ := by
  simp only [run, h1, h2]
  cases ioOk <;> rfl

theorem fsSet_idem (fs : List (String × DataFrame)) (n : String) (c : DataFrame) :
    fsSet (fsSet fs n c) n c = fsSet fs n c := by
  simp [fsSet, List.filter_filter]

theorem fsGet_fsSet (fs : List (String × DataFrame)) (n : String) (c : DataFrame) :
    fsGet (fsSet fs n c) n = some c := by
  simp [fsGet, fsSet]

/-- C1: for every integer month value `m` obtained from argument 1, the run
writes the file `output_<m>.parquet` whose table has exactly 2 rows and 3
columns, with `day = [1,2]`, `num_passengers = [3,4]` and `month = [m,m]`;
this holds for negative `m` as well, with no range validation. -/
theorem c1_output_file (argv : List String) (s : String) (m : Int)
    (h1 : argv[1]? = some s) (h2 : pyInt s = some m) :
    Ev.fileWrite (outName m) (dfFinal m) ∈ (run argv true).trace ∧
    (dfFinal m).cols.length = 3 ∧
    nRows (dfFinal m) = 2 ∧
    (dfFinal m).cols = [("day", [1, 2]), ("num_passengers", [3, 4]), ("month", [m, m])] ∧
    outName m = "output_" ++ toString m ++ ".parquet" := by
  refine ⟨?_, rfl, rfl, rfl, rfl⟩
  rw [run_ok argv s m true h1 h2]
  simp

/-- Witness for C1 at the negative month `m = -1`. -/
theorem c1_witness :
    (["pipeline.py", "-1"] : List String)[1]? = some "-1" ∧
    pyInt "-1" = some (-1) ∧
    (Ev.fileWrite (outName (-1)) (dfFinal (-1)) ∈ (run ["pipeline.py", "-1"] true).trace ∧
     (dfFinal (-1)).cols.length = 3 ∧
     nRows (dfFinal (-1)) = 2 ∧
     (dfFinal (-1)).cols = [("day", [1, 2]), ("num_passengers", [3, 4]), ("month", [-1, -1])] ∧
     outName (-1) = "output_" ++ toString (-1 : Int) ++ ".parquet") :=
  ⟨rfl, by decide, c1_output_file ["pipeline.py", "-1"] "-1" (-1) rfl (by decide)⟩

/-- C2: on a successful run, standard output is exactly three writes in
order: the argument echo, the preview of the head of the final table (all
2 rows, since the head limit 5 exceeds the row count), and the
confirmation line `hello month=<m>`. -/
theorem c2_stdout_three_lines (argv : List String) (s : String) (m : Int)
    (h1 : argv[1]? = some s) (h2 : pyInt s = some m) :
    stdoutOf (run argv true).trace =
      [Ev.argsLine argv, Ev.preview (dfFinal m), Ev.helloLine (helloStr m)] ∧
    dfHead 5 (dfFinal m) = dfFinal m ∧
    nRows (dfFinal m) = 2 ∧
    helloStr m = "hello month=" ++ toString m := by
  refine ⟨?_, rfl, rfl, rfl⟩
  rw [run_ok argv s m true h1 h2]
  rfl

/-- Witness for C2 at month 7. -/
theorem c2_witness :
    (["pipeline.py", "7"] : List String)[1]? = some "7" ∧
    pyInt "7" = some 7 ∧
    (stdoutOf (run ["pipeline.py", "7"] true).trace =
       [Ev.argsLine ["pipeline.py", "7"], Ev.preview (dfFinal 7), Ev.helloLine (helloStr 7)] ∧
     dfHead 5 (dfFinal 7) = dfFinal 7 ∧
     nRows (dfFinal 7) = 2 ∧
     helloStr 7 = "hello month=" ++ toString (7 : Int)) :=
  ⟨rfl, by decide, c2_stdout_three_lines ["pipeline.py", "7"] "7" 7 rfl (by decide)⟩

/-- C3: when argument 1 is absent or not integer-convertible, the process
exits with a nonzero status and no output file is written; the error is
not caught or recovered. -/
theorem c3_arg_error (argv : List String) (ioOk : Bool)
    (h : (argv[1]?).bind pyInt = none) :
    (run argv ioOk).exitOk = false ∧
    writesFile (run argv ioOk).trace = false := by
  cases ha : argv[1]? with
  | none =>
    simp [run, ha, writesFile]
  | some s =>
    rw [ha] at h
    replace h : pyInt s = none := h
    simp [run, ha, h, writesFile]

/-- Witness for C3 at the non-integer argument `abc`. -/
theorem c3_witness :
    ((["pipeline.py", "abc"] : List String)[1]?).bind pyInt = none ∧
    ((run ["pipeline.py", "abc"] true).exitOk = false ∧
     writesFile (run ["pipeline.py", "abc"] true).trace = false) :=
  ⟨by decide, c3_arg_error ["pipeline.py", "abc"] true (by decide)⟩

/-- C4: after the month column is added, every column of the table has the
same length, the row count 2 (the scalar month is broadcast to all rows);
the invariant holds for every table that appears in the trace, including
the one serialized to the file. -/
theorem c4_equal_column_lengths (argv : List String) (s : String) (m : Int) (ioOk : Bool)
    (h1 : argv[1]? = some s) (h2 : pyInt s = some m) :
    (∀ p ∈ (dfFinal m).cols, p.2.length = nRows (dfFinal m)) ∧
    nRows (dfFinal m) = 2 ∧
    (∀ df, Ev.preview df ∈ (run argv ioOk).trace →
      ∀ p ∈ df.cols, p.2.length = nRows df) ∧
    (∀ n df, Ev.fileWrite n df ∈ (run argv ioOk).trace →
      ∀ p ∈ df.cols, p.2.length = nRows df) := by
  have hcols : ∀ p ∈ (dfFinal m).cols, p.2.length = nRows (dfFinal m) := by
    intro p hp
    rw [dfFinal_eq] at hp
    simp only [List.mem_cons, List.not_mem_nil, or_false] at hp
    rcases hp with h | h | h <;> subst h <;> rfl
  refine ⟨hcols, rfl, ?_, ?_⟩
  · intro df hdf
    rw [run_ok argv s m ioOk h1 h2] at hdf
    cases ioOk <;> simp at hdf <;> subst hdf <;> exact hcols
  · intro n df hdf
    rw [run_ok argv s m ioOk h1 h2] at hdf
    cases ioOk <;> simp at hdf
    rcases hdf with ⟨h3, h4⟩
    subst h4
    exact hcols

/-- Witness for C4 at month 3 with a successful write. -/
theorem c4_witness :
    (["pipeline.py", "3"] : List String)[1]? = some "3" ∧
    pyInt "3" = some 3 ∧
    ((∀ p ∈ (dfFinal 3).cols, p.2.length = nRows (dfFinal 3)) ∧
     nRows (dfFinal 3) = 2 ∧
     (∀ df, Ev.preview df ∈ (run ["pipeline.py", "3"] true).trace →
       ∀ p ∈ df.cols, p.2.length = nRows df) ∧
     (∀ n df, Ev.fileWrite n df ∈ (run ["pipeline.py", "3"] true).trace →
       ∀ p ∈ df.cols, p.2.length = nRows df)) :=
  ⟨rfl, by decide, c4_equal_column_lengths ["pipeline.py", "3"] "3" 3 true rfl (by decide)⟩

/-- C5: the written table content is a deterministic function of the
parsed month: running the trace over any file system puts exactly
`dfFinal m` at `output_<m>.parquet`, and applying the same run's trace a
second time overwrites the file with identical content (idempotent in
content). -/
theorem c5_deterministic_overwrite (argv : List String) (s : String) (m : Int)
    (fs : List (String × DataFrame))
    (h1 : argv[1]? = some s) (h2 : pyInt s = some m) :
    applyTrace (applyTrace fs (run argv true).trace) (run argv true).trace =
      applyTrace fs (run argv true).trace ∧
    fsGet (applyTrace fs (run argv true).trace) (outName m) = some (dfFinal m) := by
  rw [run_ok argv s m true h1 h2]
  exact ⟨fsSet_idem fs (outName m) (dfFinal m), fsGet_fsSet fs (outName m) (dfFinal m)⟩

/-- Witness for C5 at month 5 over the empty file system. -/
theorem c5_witness :
    (["pipeline.py", "5"] : List String)[1]? = some "5" ∧
    pyInt "5" = some 5 ∧
    (applyTrace (applyTrace [] (run ["pipeline.py", "5"] true).trace)
        (run ["pipeline.py", "5"] true).trace =
      applyTrace [] (run ["pipeline.py", "5"] true).trace ∧
     fsGet (applyTrace [] (run ["pipeline.py", "5"] true).trace) (outName 5) =
      some (dfFinal 5)) :=
  ⟨rfl, by decide, c5_deterministic_overwrite ["pipeline.py", "5"] "5" 5 [] rfl (by decide)⟩

/-- C6: only argument 1 is consumed: two argument lists that agree at
position 1 produce runs that differ at most in the argument-echo event
(the head of the trace); everything after it — preview, file name and
content, confirmation line — and the exit status coincide. -/
theorem c6_only_arg1_consumed (a b : List String) (ioOk : Bool)
    (h : a[1]? = b[1]?) :
    (run a ioOk).trace.drop 1 = (run b ioOk).trace.drop 1 ∧
    (run a ioOk).exitOk = (run b ioOk).exitOk ∧
    (run a ioOk).trace.head? = some (Ev.argsLine a) ∧
    (run b ioOk).trace.head? = some (Ev.argsLine b) := by
  cases ha : a[1]? with
  | none =>
    rw [ha] at h
    simp only [run, ha, ← h]
    refine ⟨?_, ?_, ?_, ?_⟩ <;> trivial
  | some s =>
    rw [ha] at h
    cases hp : pyInt s with
    | none =>
      simp only [run, ha, ← h, hp]
      refine ⟨?_, ?_, ?_, ?_⟩ <;> trivial
    | some mm =>
      simp only [run, ha, ← h, hp]
      cases ioOk <;> refine ⟨?_, ?_, ?_, ?_⟩ <;> trivial

/-- Witness for C6: a trailing extra argument and a different program name
leave everything but the echo line unchanged. -/
theorem c6_witness :
    (["pipeline.py", "7", "extra"] : List String)[1]? = (["other", "7"] : List String)[1]? ∧
    ((run ["pipeline.py", "7", "extra"] true).trace.drop 1 =
       (run ["other", "7"] true).trace.drop 1 ∧
     (run ["pipeline.py", "7", "extra"] true).exitOk = (run ["other", "7"] true).exitOk ∧
     (run ["pipeline.py", "7", "extra"] true).trace.head? =
       some (Ev.argsLine ["pipeline.py", "7", "extra"]) ∧
     (run ["other", "7"] true).trace.head? = some (Ev.argsLine ["other", "7"])) :=
  ⟨rfl, c6_only_arg1_consumed ["pipeline.py", "7", "extra"] ["other", "7"] true rfl⟩

/-- C7: the table is mutated exactly once, by the single column
assignment: it leaves `day = [1,2]` and `num_passengers = [3,4]` intact,
keeps the insertion order with `month` appended last, and keeps the row
count at 2. -/
theorem c7_single_mutation (m : Int) :
    setCol initialDF "month" (List.replicate (nRows initialDF) m) =
      ⟨[("day", [1, 2]), ("num_passengers", [3, 4]), ("month", [m, m])]⟩ ∧
    initialDF.cols = [("day", [1, 2]), ("num_passengers", [3, 4])] ∧
    (dfFinal m).cols.map Prod.fst = ["day", "num_passengers", "month"] ∧
    nRows (dfFinal m) = nRows initialDF ∧
    nRows (dfFinal m) = 2 :=
  ⟨rfl, rfl, rfl, rfl, rfl⟩

/-- C8: whenever the confirmation line appears in a trace, the file write
succeeded (so the run reached it: `ioOk = true`) and a file-write event
occurs strictly earlier in the trace; in particular the confirmation is
never emitted on a run whose serialization fails, and never precedes the
write. -/
theorem c8_write_before_hello (argv : List String) (ioOk : Bool) (x : String)
    (h : Ev.helloLine x ∈ (run argv ioOk).trace) :
    ioOk = true ∧
    ∃ (i j : Nat) (n : String) (c : DataFrame), i < j ∧
      (run argv ioOk).trace[i]? = some (Ev.fileWrite n c) ∧
      (run argv ioOk).trace[j]? = some (Ev.helloLine x) := by
  cases ha : argv[1]? with
  | none =>
    simp only [run, ha] at h
    simp at h
  | some s =>
    cases hp : pyInt s with
    | none =>
      simp only [run, ha, hp] at h
      simp at h
    | some mm =>
      rw [run_ok argv s mm ioOk ha hp] at h ⊢
      cases ioOk
      · simp at h
      · simp only [if_pos] at h
        simp at h
        subst h
        exact ⟨rfl, 2, 3, outName mm, dfFinal mm, by omega, rfl, rfl⟩

/-- Witness for C8 at month 7: the confirmation is trace position 3, the
file write position 2. -/
theorem c8_witness :
    Ev.helloLine "hello month=7" ∈ (run ["pipeline.py", "7"] true).trace ∧
    (true = true ∧
     ∃ (i j : Nat) (n : String) (c : DataFrame), i < j ∧
       (run ["pipeline.py", "7"] true).trace[i]? = some (Ev.fileWrite n c) ∧
       (run ["pipeline.py", "7"] true).trace[j]? = some (Ev.helloLine "hello month=7")) :=
  ⟨by decide, c8_write_before_hello ["pipeline.py", "7"] true "hello month=7" (by decide)⟩

/-- C9: on a run that aborts with an argument error (argument 1 missing or
not integer-convertible), the echo line has already been written: the
trace is exactly the argument echo, with no output file and a nonzero
exit status. -/
theorem c9_echo_precedes_error (argv : List String) (ioOk : Bool)
    (h : (argv[1]?).bind pyInt = none) :
    (run argv ioOk).trace = [Ev.argsLine argv] ∧
    writesFile (run argv ioOk).trace = false ∧
    (run argv ioOk).exitOk = false := by
  cases ha : argv[1]? with
  | none =>
    simp [run, ha, writesFile]
  | some s =>
    rw [ha] at h
    replace h : pyInt s = none := h
    simp [run, ha, h, writesFile]

/-- Witness for C9 at a missing argument. -/
theorem c9_witness :
    ((["pipeline.py"] : List String)[1]?).bind pyInt = none ∧
    ((run ["pipeline.py"] true).trace = [Ev.argsLine ["pipeline.py"]] ∧
     writesFile (run ["pipeline.py"] true).trace = false ∧
     (run ["pipeline.py"] true).exitOk = false) :=
  ⟨rfl, c9_echo_precedes_error ["pipeline.py"] true rfl⟩

/-- C10: argument strings that are not bare digit sequences but still
integer-convertible — surrounding whitespace, an explicit sign — are
accepted and parse to the corresponding integer; any two argument strings
parsing to the same month yield runs identical after the echo line, so
the file name and month column use only the parsed, normalized value. -/
theorem c10_flexible_integer_forms (p q s v : String) (m : Int)
    (h1 : pyInt s = some m) (h2 : pyInt v = some m) :
    pyInt " 7 " = some 7 ∧
    pyInt "+7" = some 7 ∧
    (run [p, s] true).trace.drop 1 = (run [q, v] true).trace.drop 1 ∧
    Ev.fileWrite (outName m) (dfFinal m) ∈ (run [p, s] true).trace := by
  refine ⟨by decide, by decide, ?_, ?_⟩
  · rw [run_ok [p, s] s m true rfl h1, run_ok [q, v] v m true rfl h2]
    rfl
  · rw [run_ok [p, s] s m true rfl h1]
    simp

/-- Witness for C10: the forms with whitespace and canonical form of 7
give identical behavior past the echo line. -/
theorem c10_witness :
    pyInt " 7 " = some 7 ∧ pyInt "7" = some 7 ∧
    (pyInt " 7 " = some 7 ∧
     pyInt "+7" = some 7 ∧
     (run ["pipeline.py", " 7 "] true).trace.drop 1 =
       (run ["pipeline.py", "7"] true).trace.drop 1 ∧
     Ev.fileWrite (outName 7) (dfFinal 7) ∈ (run ["pipeline.py", " 7 "] true).trace) :=
  ⟨by decide, by decide,
   c10_flexible_integer_forms "pipeline.py" "pipeline.py" " 7 " "7" 7 (by decide) (by decide)⟩
